import Mathlib

/-!
Shallow embedding of `bevy_simpletoon` (src/src/plugin.rs) in Lean 4,
together with theorems settling the specification claims.

The Rust plugin is a Bevy post-processing stage.  We embed:
  * the `SimpletoonSettings` component and its `Default` impl
    (`plugin.rs`, lines 32-44 and 229-243), with `f32` fields modelled as
    exact rationals — every literal in the source is stated verbatim;
  * the bind group layout produced by `PostProcessPipeline::from_world`
    (lines 175-227) as a list of slot descriptors;
  * the per-frame node `SimpletoonPostProcessNode::run` (lines 107-172)
    as a pure function from its resource inputs to the list of recorded
    render commands, the view target's ping-pong state, the emitted log
    lines and the returned `Result`;
  * `SimpletoonPlugin::build` / `finish` (lines 53-89) as functions over
    an app state with an optional render sub-app;
  * the `#[require(DepthPrepass, NormalPrepass)]` attribute (line 33) via
    Bevy's required-components insertion semantics;
  * the fragment program logic.  The shader `assets/toon.wgsl` is
    referenced by `plugin.rs` but its source is not part of the
    repository snapshot under `src/`, so the quantization and outline
    logic are modelled from the spec (marked `Modelled from the spec:`).
-/

namespace Simpletoon

/-- RGBA vector, the embedding of Bevy's `Vec4` with exact rational
components in place of `f32`. -/
structure Vec4 where
  x : ℚ
  y : ℚ
  z : ℚ
  w : ℚ
deriving DecidableEq, Repr

/-- Embedding of the `SimpletoonSettings` component (`plugin.rs` lines
32-44); each `f32` field is modelled as an exact rational. -/
structure SimpletoonSettings where
  depth_threshold : ℚ
  depth_threshold_depth_mul : ℚ
  depth_normal_threshold : ℚ
  depth_normal_threshold_mul : ℚ
  normal_threshold : ℚ
  colour_threshold : ℚ
  stroke_size : ℚ
  colour_banding : ℚ
  stroke_colour : Vec4
deriving DecidableEq, Repr

/-- Embedding of `impl Default for SimpletoonSettings` (`plugin.rs`
lines 229-243): every field literal is transcribed verbatim. -/
def SimpletoonSettings.default : SimpletoonSettings where
  depth_threshold := 1.0
  depth_threshold_depth_mul := 1.0
  depth_normal_threshold := 0.4
  depth_normal_threshold_mul := 30.0
  normal_threshold := 0.4
  colour_threshold := 0.2
  stroke_size := 1.0
  colour_banding := 5.0
  stroke_colour := ⟨0.1, 0.1, 0.1, 1.0⟩

/-- Modelled from the spec: the fragment program `assets/toon.wgsl` is
loaded by `plugin.rs` but its source is not in the repository snapshot;
the toon quantization is taken from the spec's formula
`floor(intensity * bands) / bands`. -/
def quantize (bands : ℚ) (x : ℚ) : ℚ := ⌊x * bands⌋ / bands

/-- Modelled from the spec: per-pixel intensity of a lit colour
(Rec. 709 luminance weights; the spec fixes only that a
luminance/intensity metric is used). -/
def luminance (c : Vec4) : ℚ :=
  2126 / 10000 * c.x + 7152 / 10000 * c.y + 722 / 10000 * c.z

/-- Modelled from the spec: toon banding of a non-edge pixel — quantize
the intensity into `bands` levels and reconstitute the colour preserving
hue/chroma, with alpha passed through from the source. -/
def bandColour (bands : ℚ) (c : Vec4) : Vec4 :=
  let i := luminance c
  if i = 0 then ⟨0, 0, 0, c.w⟩
  else ⟨c.x * (quantize bands i / i), c.y * (quantize bands i / i),
        c.z * (quantize bands i / i), c.w⟩

/-- Modelled from the spec: the fragment program's output for one pixel.
A pixel flagged by any of the depth, normal or colour discontinuity
tests is an outline pixel and is written as `stroke_colour`; otherwise
the lit colour is banded. -/
def fragmentOutput (s : SimpletoonSettings) (depthEdge normalEdge colourEdge : Bool)
    (lit : Vec4) : Vec4 :=
  if depthEdge || normalEdge || colourEdge then s.stroke_colour
  else bandColour s.colour_banding lit

/-! Bind group layout (`PostProcessPipeline::from_world`). -/

/-- Which uniform type a dynamically-offset uniform-buffer slot carries. -/
inductive UniformKind where
  | simpletoonSettingsU
  | viewUniformU
deriving DecidableEq, Repr

/-- Descriptor of one fragment-stage binding slot, as declared by
`BindGroupLayoutEntries::sequential` in `from_world` (`plugin.rs` lines
179-192). -/
inductive SlotKind where
  | texture2dFloatFilterable
  | samplerFiltering
  | uniformBufferDynamic (u : UniformKind)
  | textureDepth2d
deriving DecidableEq, Repr

/-- Embedding of the bind group layout created in
`PostProcessPipeline::from_world`: the six slots, fragment stage, in
source order. -/
def postProcessLayout : List SlotKind :=
  [ .texture2dFloatFilterable,
    .samplerFiltering,
    .uniformBufferDynamic .simpletoonSettingsU,
    .textureDepth2d,
    .texture2dFloatFilterable,
    .uniformBufferDynamic .viewUniformU ]

/-! Per-frame compositing node (`SimpletoonPostProcessNode::run`). -/

/-- Identifier of a GPU texture view. -/
abbrev TextureId := Nat

/-- Identifier of a compiled render pipeline resolved from the cache. -/
abbrev RenderPipelineId := Nat

/-- Identifier of a sampler. -/
abbrev SamplerId := Nat

/-- Identifier of a uniform-buffer binding. -/
abbrev BufferId := Nat

/-- Resource placed in one bind-group entry by
`BindGroupEntries::sequential` in `run`. -/
inductive BindingResource where
  | textureView (t : TextureId)
  | samplerRes (s : SamplerId)
  | bufferBinding (b : BufferId)
deriving DecidableEq, Repr

/-- Commands recorded on the render context by one invocation of `run`. -/
inductive RenderCommand where
  | beginRenderPass (colorAttachment : TextureId)
  | setRenderPipeline (p : RenderPipelineId)
  | setBindGroup (slot : Nat) (entries : List BindingResource) (dynamicOffsets : List Nat)
  | draw (vertexStart vertexCount instanceStart instanceCount : Nat)
deriving DecidableEq, Repr

/-- Embedding of `NodeRunError` (the error type of `ViewNode::run`). -/
inductive NodeRunError where
  | runError (msg : String)
deriving DecidableEq, Repr

/-- Ping-pong state of a view's colour target: which of the two main
textures (`texA`/`texB`) currently holds the latest colour contents.
`post_process_write` reads the current main texture as source, writes
the other as destination, and flips the flag. -/
structure ViewTargetState where
  mainIsA : Bool
deriving DecidableEq, Repr

/-- Texture id of the view target's first main texture. -/
def texA : TextureId := 0

/-- Texture id of the view target's second main texture. -/
def texB : TextureId := 1

/-- Result of `ViewTarget::post_process_write`: the source/destination
views plus the flipped target state. -/
def postProcessWrite (t : ViewTargetState) :
    (TextureId × TextureId) × ViewTargetState :=
  ((if t.mainIsA then texA else texB, if t.mainIsA then texB else texA),
   ⟨!t.mainIsA⟩)

/-- Embedding of the `PostProcessPipeline` resource (`plugin.rs` lines
46-51). -/
structure PostProcessPipeline where
  layout : List SlotKind
  sampler : SamplerId
  pipeline_id : Nat
deriving DecidableEq, Repr

/-- World-resident resources read by `run`: the pipeline-cache lookup
result for `pipeline_id`, the two uniform-buffer bindings, and the
view's prepass textures.  Each is `Option`al exactly where the source
uses a fallible lookup (`get_render_pipeline`, `binding()`, and the
`Option` fields of `ViewPrepassTextures`). -/
structure RunInputs where
  postProcessPipeline : PostProcessPipeline
  cachedPipeline : Option RenderPipelineId
  viewUniformsBinding : Option BufferId
  settingsBinding : Option BufferId
  depthPrepass : Option TextureId
  normalPrepass : Option TextureId
deriving DecidableEq, Repr

/-- Per-view query item of the node (`ViewNode::ViewQuery`): the view
target, the `SimpletoonSettings` component value (fetched but unused by
`run`), the `DynamicUniformIndex<SimpletoonSettings>` and the
`ViewUniformOffset`. -/
structure ViewItem where
  target : ViewTargetState
  settings : SimpletoonSettings
  settingsIndex : Nat
  viewOffset : Nat

/-- Everything one invocation of `run` produces: the recorded commands,
the view target's (possibly flipped) ping-pong state, the lines printed
to stdout, and the returned `Result`. -/
structure RunOutput where
  commands : List RenderCommand
  target : ViewTargetState
  logs : List String
  result : Except NodeRunError Unit
deriving Repr

/-- Embedding of `SimpletoonPostProcessNode::run` (`plugin.rs` lines
107-172).  The guard order follows the source: cached pipeline, then
view-uniforms binding, then settings binding, then the two prepass
textures (whose absence prints a diagnostic); on success it acquires the
post-process write, builds the sequential bind group, and records one
render pass with one bind-group set (two dynamic offsets) and one draw
of vertices `0..3`, instances `0..1`. -/
def run (inp : RunInputs) (view : ViewItem) : RunOutput :=
  match inp.cachedPipeline with
  | none => ⟨[], view.target, [], .ok ()⟩
  | some pipeline =>
    match inp.viewUniformsBinding with
    | none => ⟨[], view.target, [], .ok ()⟩
    | some viewUniforms =>
      match inp.settingsBinding with
      | none => ⟨[], view.target, [], .ok ()⟩
      | some settingsBinding =>
        match inp.depthPrepass, inp.normalPrepass with
        | some depthTexture, some normalTexture =>
          let pp := postProcessWrite view.target
          let source := pp.1.1
          let destination := pp.1.2
          let bindGroupEntries : List BindingResource :=
            [ .textureView source,
              .samplerRes inp.postProcessPipeline.sampler,
              .bufferBinding settingsBinding,
              .textureView depthTexture,
              .textureView normalTexture,
              .bufferBinding viewUniforms ]
          ⟨[ .beginRenderPass destination,
             .setRenderPipeline pipeline,
             .setBindGroup 0 bindGroupEntries [view.settingsIndex, view.viewOffset],
             .draw 0 3 0 1 ],
           pp.2, [], .ok ()⟩
        | _, _ =>
          ⟨[], view.target, ["could not find depth or normal"], .ok ()⟩

/-! Plugin registration (`SimpletoonPlugin::build` / `finish`). -/

/-- Nodes of the `Core3d` render graph relevant to this plugin. -/
inductive Core3dNode where
  | tonemapping
  | simpletoonPostProcess
  | fxaa
  | endMainPassPostProcessing
deriving DecidableEq, Repr

/-- Render sub-app state touched by the plugin: the `Core3d` graph's
nodes and ordering edges, and whether the `PostProcessPipeline` resource
has been initialized. -/
structure RenderAppState where
  graphNodes : List Core3dNode
  graphEdges : List (Core3dNode × Core3dNode)
  pipelineResourceInitialized : Bool
deriving DecidableEq, Repr

/-- Main-app state touched by the plugin; `renderApp` is `none` when the
render sub-application is unavailable. -/
structure AppState where
  embeddedAssets : List String
  plugins : List String
  renderApp : Option RenderAppState
deriving DecidableEq, Repr

/-- Ordering edges added by `add_render_graph_edges(Core3d, (Tonemapping,
SimpletoonPostProcessLabel, Fxaa, EndMainPassPostProcessing))`: each
consecutive pair becomes a before-edge. -/
def simpletoonGraphEdges : List (Core3dNode × Core3dNode) :=
  [ (.tonemapping, .simpletoonPostProcess),
    (.simpletoonPostProcess, .fxaa),
    (.fxaa, .endMainPassPostProcessing) ]

/-- Embedding of `SimpletoonPlugin::build` (`plugin.rs` lines 53-79):
register the embedded shader asset and the two extraction plugins, then
— only if the render sub-app exists — add the node and its graph
edges. -/
def build (app : AppState) : AppState :=
  let app' : AppState :=
    { app with
      embeddedAssets := app.embeddedAssets ++ ["assets/toon.wgsl"],
      plugins := app.plugins ++
        ["ExtractComponentPlugin<SimpletoonSettings>",
         "UniformComponentPlugin<SimpletoonSettings>"] }
  match app'.renderApp with
  | none => app'
  | some ra =>
    { app' with
      renderApp := some
        { ra with
          graphNodes := ra.graphNodes ++ [.simpletoonPostProcess],
          graphEdges := ra.graphEdges ++ simpletoonGraphEdges } }

/-- Embedding of `SimpletoonPlugin::finish` (`plugin.rs` lines 81-88):
initialize the `PostProcessPipeline` resource if the render sub-app
exists, else do nothing. -/
def finish (app : AppState) : AppState :=
  match app.renderApp with
  | none => app
  | some ra =>
    { app with
      renderApp := some { ra with pipelineResourceInitialized := true } }

/-- Strict happens-before order induced by a render graph's edge list:
the transitive closure of the declared edges. -/
def graphBefore (edges : List (Core3dNode × Core3dNode))
    (a b : Core3dNode) : Prop :=
  Relation.TransGen (fun x y => (x, y) ∈ edges) a b

/-! Required components (`#[require(DepthPrepass, NormalPrepass)]`). -/

/-- Component types relevant to the `require` attribute on
`SimpletoonSettings`; `otherC` stands for any unrelated component. -/
inductive ComponentId where
  | simpletoonSettingsC
  | depthPrepassC
  | normalPrepassC
  | otherC (n : Nat)
deriving DecidableEq, Repr

/-- Required components declared by `#[require(...)]` attributes:
`SimpletoonSettings` requires `DepthPrepass` and `NormalPrepass`
(`plugin.rs` line 33); no other component declares requirements. -/
def requiredComponents : ComponentId → List ComponentId
  | .simpletoonSettingsC => [.depthPrepassC, .normalPrepassC]
  | _ => []

/-- Bevy's required-components insertion semantics: inserting a
component also inserts each of its required components that is not
already present on the entity (an entity is its set of component
types). -/
def insertComponent (entity : List ComponentId) (c : ComponentId) :
    List ComponentId :=
  let entity' := if c ∈ entity then entity else c :: entity
  (requiredComponents c).foldl
    (fun acc r => if r ∈ acc then acc else r :: acc) entity'

/-! Theorems settling the claims. -/

/-- C2: `SimpletoonSettings::default()` equals exactly
depth_threshold=1.0, depth_threshold_depth_mul=1.0,
depth_normal_threshold=0.4, depth_normal_threshold_mul=30.0,
normal_threshold=0.4, colour_threshold=0.2, stroke_size=1.0,
colour_banding=5.0, stroke_colour=(0.1,0.1,0.1,1.0). -/
theorem default_settings_exact :
    SimpletoonSettings.default =
      { depth_threshold := 1.0
        depth_threshold_depth_mul := 1.0
        depth_normal_threshold := 0.4
        depth_normal_threshold_mul := 30.0
        normal_threshold := 0.4
        colour_threshold := 0.2
        stroke_size := 1.0
        colour_banding := 5.0
        stroke_colour := ⟨0.1, 0.1, 0.1, 1.0⟩ } := by
  rfl

/-- C8: attaching the `SimpletoonSettings` component to any entity also
puts `DepthPrepass` and `NormalPrepass` on that entity, by the
`#[require(DepthPrepass, NormalPrepass)]` attribute: every camera with
the effect enabled has both prepasses enabled. -/
theorem settings_requires_prepasses (entity : List ComponentId) :
    ComponentId.simpletoonSettingsC ∈ insertComponent entity .simpletoonSettingsC ∧
    ComponentId.depthPrepassC ∈ insertComponent entity .simpletoonSettingsC ∧
    ComponentId.normalPrepassC ∈ insertComponent entity .simpletoonSettingsC := by
  simp only [insertComponent, requiredComponents, List.foldl]
  split_ifs <;> simp_all

/-- C9: when the render sub-application is unavailable
(`app.get_sub_app_mut(RenderApp)` yields nothing), `build` performs only
the main-app registrations and `finish` does nothing at all; both return
normally and no render-side state is created. -/
theorem build_finish_noop_without_render_app (app : AppState)
    (h : app.renderApp = none) :
    build app =
      { app with
        embeddedAssets := app.embeddedAssets ++ ["assets/toon.wgsl"],
        plugins := app.plugins ++
          ["ExtractComponentPlugin<SimpletoonSettings>",
           "UniformComponentPlugin<SimpletoonSettings>"] } ∧
    (build app).renderApp = none ∧ finish app = app := by
  refine ⟨?_, ?_, ?_⟩ <;> simp [build, finish, h]

/-- Witness for C9 at a concrete app state with no render sub-app. -/
theorem build_finish_noop_without_render_app_witness :
    (AppState.renderApp ⟨[], [], none⟩ = none) ∧
    (build ⟨[], [], none⟩ =
      { embeddedAssets := ["assets/toon.wgsl"],
        plugins :=
          ["ExtractComponentPlugin<SimpletoonSettings>",
           "UniformComponentPlugin<SimpletoonSettings>"],
        renderApp := none } ∧
     (build ⟨[], [], none⟩).renderApp = none ∧
     finish ⟨[], [], none⟩ = ⟨[], [], none⟩) :=
  ⟨rfl, build_finish_noop_without_render_app ⟨[], [], none⟩ rfl⟩

/-- C10: `run` is independent of the `SimpletoonSettings` component value
fetched by the view query — two invocations differing only in that value
produce identical outputs (same commands, same target state, same logs,
same result) — and `run` always returns `Ok(())`; its output type
carries no ECS state, so it mutates no entity or resource. -/
theorem run_ignores_settings_component (inp : RunInputs) (view : ViewItem)
    (s₁ s₂ : SimpletoonSettings) :
    run inp { view with settings := s₁ } = run inp { view with settings := s₂ } ∧
    (run inp view).result = .ok () := by
  constructor
  · rfl
  · rcases inp with ⟨pp, cp, vu, sb, dp, np⟩
    cases cp <;> cases vu <;> cases sb <;> cases dp <;> cases np <;> rfl

/-- C1: whenever the cached pipeline, the view-uniform binding, the
settings-uniform binding, or either prepass texture is unavailable,
`run` records no command at all (hence no render pass and no draw),
leaves the view target's ping-pong state unchanged, and returns
`Ok(())`; it prints the diagnostic line exactly when the first three
resources are available but a prepass texture is missing, and stays
silent in every other skip case. -/
theorem run_skip_on_missing_resources (inp : RunInputs) (view : ViewItem)
    (h : inp.cachedPipeline = none ∨ inp.viewUniformsBinding = none ∨
         inp.settingsBinding = none ∨ inp.depthPrepass = none ∨
         inp.normalPrepass = none) :
    (run inp view).commands = [] ∧
    (run inp view).target = view.target ∧
    (run inp view).result = .ok () ∧
    (run inp view).logs =
      (if inp.cachedPipeline.isSome ∧ inp.viewUniformsBinding.isSome ∧
          inp.settingsBinding.isSome ∧
          (inp.depthPrepass = none ∨ inp.normalPrepass = none)
       then ["could not find depth or normal"] else []) := by
  obtain ⟨pp, cp, vu, sb, dp, np⟩ := inp
  cases cp <;> cases vu <;> cases sb <;> cases dp <;> cases np <;>
    simp_all [run]

/-- Witness for C1: a concrete invocation whose prepass depth texture is
absent is skipped and emits the diagnostic line. -/
theorem run_skip_on_missing_resources_witness :
    (RunInputs.cachedPipeline ⟨⟨postProcessLayout, 4, 9⟩, some 7, some 0, some 1, none, some 3⟩ = none ∨
     RunInputs.viewUniformsBinding ⟨⟨postProcessLayout, 4, 9⟩, some 7, some 0, some 1, none, some 3⟩ = none ∨
     RunInputs.settingsBinding ⟨⟨postProcessLayout, 4, 9⟩, some 7, some 0, some 1, none, some 3⟩ = none ∨
     RunInputs.depthPrepass ⟨⟨postProcessLayout, 4, 9⟩, some 7, some 0, some 1, none, some 3⟩ = none ∨
     RunInputs.normalPrepass ⟨⟨postProcessLayout, 4, 9⟩, some 7, some 0, some 1, none, some 3⟩ = none) ∧
    ((run ⟨⟨postProcessLayout, 4, 9⟩, some 7, some 0, some 1, none, some 3⟩
        ⟨⟨true⟩, SimpletoonSettings.default, 5, 6⟩).commands = [] ∧
     (run ⟨⟨postProcessLayout, 4, 9⟩, some 7, some 0, some 1, none, some 3⟩
        ⟨⟨true⟩, SimpletoonSettings.default, 5, 6⟩).target =
       ViewItem.target ⟨⟨true⟩, SimpletoonSettings.default, 5, 6⟩ ∧
     (run ⟨⟨postProcessLayout, 4, 9⟩, some 7, some 0, some 1, none, some 3⟩
        ⟨⟨true⟩, SimpletoonSettings.default, 5, 6⟩).result = .ok () ∧
     (run ⟨⟨postProcessLayout, 4, 9⟩, some 7, some 0, some 1, none, some 3⟩
        ⟨⟨true⟩, SimpletoonSettings.default, 5, 6⟩).logs =
       (if (RunInputs.cachedPipeline ⟨⟨postProcessLayout, 4, 9⟩, some 7, some 0, some 1, none, some 3⟩).isSome ∧
           (RunInputs.viewUniformsBinding ⟨⟨postProcessLayout, 4, 9⟩, some 7, some 0, some 1, none, some 3⟩).isSome ∧
           (RunInputs.settingsBinding ⟨⟨postProcessLayout, 4, 9⟩, some 7, some 0, some 1, none, some 3⟩).isSome ∧
           (RunInputs.depthPrepass ⟨⟨postProcessLayout, 4, 9⟩, some 7, some 0, some 1, none, some 3⟩ = none ∨
            RunInputs.normalPrepass ⟨⟨postProcessLayout, 4, 9⟩, some 7, some 0, some 1, none, some 3⟩ = none)
        then ["could not find depth or normal"] else [])) :=
  ⟨Or.inr (Or.inr (Or.inr (Or.inl rfl))),
   run_skip_on_missing_resources _ _ (Or.inr (Or.inr (Or.inr (Or.inl rfl))))⟩

/-- Predicate pairing a layout slot with a compatible bind-group
resource: texture slots take texture views, the sampler slot a sampler,
uniform slots buffer bindings. -/
def resourceMatchesSlot : SlotKind → BindingResource → Bool
  | .texture2dFloatFilterable, .textureView _ => true
  | .samplerFiltering, .samplerRes _ => true
  | .uniformBufferDynamic _, .bufferBinding _ => true
  | .textureDepth2d, .textureView _ => true
  | _, _ => false

/-- C3: the layout created at pipeline-builder time has exactly the six
fragment-stage slots in source order (colour texture, filtering
sampler, settings uniform with dynamic offset, depth texture, normal
texture, view uniform with dynamic offset), and any non-skipped `run`
builds exactly one bind group whose entries are, in the same order, the
colour source view, the pipeline's sampler, the settings binding, the
depth prepass view, the normal prepass view and the view-uniform
binding — slot-for-slot compatible with the layout. -/
theorem layout_and_bind_group_order (inp : RunInputs) (view : ViewItem)
    (p : RenderPipelineId) (vb sb : BufferId) (dt nt : TextureId)
    (hp : inp.cachedPipeline = some p)
    (hv : inp.viewUniformsBinding = some vb)
    (hs : inp.settingsBinding = some sb)
    (hd : inp.depthPrepass = some dt)
    (hn : inp.normalPrepass = some nt) :
    postProcessLayout =
      [ .texture2dFloatFilterable,
        .samplerFiltering,
        .uniformBufferDynamic .simpletoonSettingsU,
        .textureDepth2d,
        .texture2dFloatFilterable,
        .uniformBufferDynamic .viewUniformU ] ∧
    ((run inp view).commands.filter fun c =>
        match c with | .setBindGroup _ _ _ => true | _ => false) =
      [ .setBindGroup 0
          [ .textureView (postProcessWrite view.target).1.1,
            .samplerRes inp.postProcessPipeline.sampler,
            .bufferBinding sb,
            .textureView dt,
            .textureView nt,
            .bufferBinding vb ]
          [view.settingsIndex, view.viewOffset] ] ∧
    List.Forall₂ (fun s r => resourceMatchesSlot s r = true) postProcessLayout
      [ BindingResource.textureView (postProcessWrite view.target).1.1,
        .samplerRes inp.postProcessPipeline.sampler,
        .bufferBinding sb,
        .textureView dt,
        .textureView nt,
        .bufferBinding vb ] := by
  obtain ⟨pp, cp, vu, sbi, dpi, npi⟩ := inp
  cases hp; cases hv; cases hs; cases hd; cases hn
  refine ⟨rfl, ?_, ?_⟩
  · simp [run, List.filter]
  · simp [postProcessLayout, resourceMatchesSlot]

/-- Witness for C3 at a fully-available concrete invocation. -/
theorem layout_and_bind_group_order_witness :
    (RunInputs.cachedPipeline ⟨⟨postProcessLayout, 4, 9⟩, some 7, some 0, some 1, some 2, some 3⟩ = some 7) ∧
    (postProcessLayout =
      [ .texture2dFloatFilterable,
        .samplerFiltering,
        .uniformBufferDynamic .simpletoonSettingsU,
        .textureDepth2d,
        .texture2dFloatFilterable,
        .uniformBufferDynamic .viewUniformU ] ∧
     ((run ⟨⟨postProcessLayout, 4, 9⟩, some 7, some 0, some 1, some 2, some 3⟩
         ⟨⟨true⟩, SimpletoonSettings.default, 5, 6⟩).commands.filter fun c =>
           match c with | .setBindGroup _ _ _ => true | _ => false) =
       [ .setBindGroup 0
           [ .textureView (postProcessWrite (ViewItem.target ⟨⟨true⟩, SimpletoonSettings.default, 5, 6⟩)).1.1,
             .samplerRes (RunInputs.postProcessPipeline ⟨⟨postProcessLayout, 4, 9⟩, some 7, some 0, some 1, some 2, some 3⟩).sampler,
             .bufferBinding 1,
             .textureView 2,
             .textureView 3,
             .bufferBinding 0 ]
           [ViewItem.settingsIndex ⟨⟨true⟩, SimpletoonSettings.default, 5, 6⟩,
            ViewItem.viewOffset ⟨⟨true⟩, SimpletoonSettings.default, 5, 6⟩] ] ∧
     List.Forall₂ (fun s r => resourceMatchesSlot s r = true) postProcessLayout
       [ BindingResource.textureView (postProcessWrite (ViewItem.target ⟨⟨true⟩, SimpletoonSettings.default, 5, 6⟩)).1.1,
         .samplerRes (RunInputs.postProcessPipeline ⟨⟨postProcessLayout, 4, 9⟩, some 7, some 0, some 1, some 2, some 3⟩).sampler,
         .bufferBinding 1,
         .textureView 2,
         .textureView 3,
         .bufferBinding 0 ]) :=
  ⟨rfl, layout_and_bind_group_order _ _ 7 0 1 2 3 rfl rfl rfl rfl rfl⟩

/-- C4: a non-skipped invocation of `run` records exactly one draw call
— vertices `0..3`, instances `0..1` — and exactly one bind-group set, at
slot 0, with exactly the two dynamic offsets: the view's settings
uniform index first and the view uniform offset second. -/
theorem run_single_fullscreen_draw (inp : RunInputs) (view : ViewItem)
    (p : RenderPipelineId) (vb sb : BufferId) (dt nt : TextureId)
    (hp : inp.cachedPipeline = some p)
    (hv : inp.viewUniformsBinding = some vb)
    (hs : inp.settingsBinding = some sb)
    (hd : inp.depthPrepass = some dt)
    (hn : inp.normalPrepass = some nt) :
    ((run inp view).commands.filter fun c =>
        match c with | .draw _ _ _ _ => true | _ => false) =
      [.draw 0 3 0 1] ∧
    ∃ entries,
      ((run inp view).commands.filter fun c =>
          match c with | .setBindGroup _ _ _ => true | _ => false) =
        [.setBindGroup 0 entries [view.settingsIndex, view.viewOffset]] := by
  obtain ⟨pp, cp, vu, sbi, dpi, npi⟩ := inp
  cases hp; cases hv; cases hs; cases hd; cases hn
  exact ⟨rfl, _, rfl⟩

/-- Witness for C4 at a fully-available concrete invocation. -/
theorem run_single_fullscreen_draw_witness :
    (RunInputs.normalPrepass ⟨⟨postProcessLayout, 4, 9⟩, some 7, some 0, some 1, some 2, some 3⟩ = some 3) ∧
    (((run ⟨⟨postProcessLayout, 4, 9⟩, some 7, some 0, some 1, some 2, some 3⟩
         ⟨⟨false⟩, SimpletoonSettings.default, 5, 6⟩).commands.filter fun c =>
           match c with | .draw _ _ _ _ => true | _ => false) =
       [.draw 0 3 0 1] ∧
     ∃ entries,
       ((run ⟨⟨postProcessLayout, 4, 9⟩, some 7, some 0, some 1, some 2, some 3⟩
           ⟨⟨false⟩, SimpletoonSettings.default, 5, 6⟩).commands.filter fun c =>
           match c with | .setBindGroup _ _ _ => true | _ => false) =
         [.setBindGroup 0 entries
            [ViewItem.settingsIndex ⟨⟨false⟩, SimpletoonSettings.default, 5, 6⟩,
             ViewItem.viewOffset ⟨⟨false⟩, SimpletoonSettings.default, 5, 6⟩]]) :=
  ⟨rfl, run_single_fullscreen_draw _ _ 7 0 1 2 3 rfl rfl rfl rfl rfl⟩

/-- C5: when the render sub-app exists, `build` registers the
compositing node in the `Core3d` graph and wires ordering edges so that
it runs strictly after `Tonemapping` and strictly before `Fxaa` and
`EndMainPassPostProcessing` (the latter via the `Fxaa` edge, by
transitivity). -/
theorem node_graph_ordering (app : AppState) (ra : RenderAppState)
    (h : app.renderApp = some ra) :
    ∃ ra', (build app).renderApp = some ra' ∧
      Core3dNode.simpletoonPostProcess ∈ ra'.graphNodes ∧
      graphBefore ra'.graphEdges .tonemapping .simpletoonPostProcess ∧
      graphBefore ra'.graphEdges .simpletoonPostProcess .fxaa ∧
      graphBefore ra'.graphEdges .simpletoonPostProcess .endMainPassPostProcessing := by
  refine ⟨{ ra with
      graphNodes := ra.graphNodes ++ [.simpletoonPostProcess],
      graphEdges := ra.graphEdges ++ simpletoonGraphEdges }, ?_, ?_, ?_, ?_, ?_⟩
  · simp [build, h]
  · simp
  · exact Relation.TransGen.single (by simp [simpletoonGraphEdges])
  · exact Relation.TransGen.single (by simp [simpletoonGraphEdges])
  · exact Relation.TransGen.head (b := Core3dNode.fxaa)
      (by simp [simpletoonGraphEdges])
      (Relation.TransGen.single (by simp [simpletoonGraphEdges]))

/-- Witness for C5 at a concrete app state with an empty render
sub-app. -/
theorem node_graph_ordering_witness :
    (AppState.renderApp ⟨[], [], some ⟨[], [], false⟩⟩ = some ⟨[], [], false⟩) ∧
    (∃ ra', (build ⟨[], [], some ⟨[], [], false⟩⟩).renderApp = some ra' ∧
      Core3dNode.simpletoonPostProcess ∈ ra'.graphNodes ∧
      graphBefore ra'.graphEdges .tonemapping .simpletoonPostProcess ∧
      graphBefore ra'.graphEdges .simpletoonPostProcess .fxaa ∧
      graphBefore ra'.graphEdges .simpletoonPostProcess .endMainPassPostProcessing) :=
  ⟨rfl, node_graph_ordering _ _ rfl⟩

/-- C6 (counterexample): the claim as stated fails on the closed ramp
[0,1].  With `colour_banding = 1` the quantization should produce
exactly one distinct output level, yet the ramp endpoints 0 and 1 are
both in [0,1] and map to the two distinct levels 0 and 1 — the formula
`floor(x * N) / N` attains an (N+1)-th level at intensity exactly 1. -/
theorem quantize_levels_counterexample :
    (0 : ℚ) ∈ Set.Icc (0 : ℚ) 1 ∧ (1 : ℚ) ∈ Set.Icc (0 : ℚ) 1 ∧
    quantize 1 0 = 0 ∧ quantize 1 1 = 1 ∧ quantize 1 0 ≠ quantize 1 1 := by
  refine ⟨by norm_num, by norm_num, ?_, ?_, ?_⟩ <;> norm_num [quantize]

/-- C6 (amended): for every band count N ≥ 1, the quantization maps the
half-open ramp [0,1) onto exactly the N distinct levels k/N (k < N) —
every input lands on such a level, every level is attained, and the
level set has cardinality N — and re-quantizing any already-quantized
value with the same N returns it unchanged; the single extra (N+1)-th
level 1 is attained only at intensity exactly 1. -/
theorem quantize_bands_amended (N : ℕ) (hN : 1 ≤ N) :
    (∀ x : ℚ, 0 ≤ x → x < 1 →
       quantize N x ∈ (Finset.range N).image (fun k : ℕ => (k : ℚ) / N)) ∧
    (∀ k : ℕ, k < N → quantize N ((k : ℚ) / N) = (k : ℚ) / N) ∧
    ((Finset.range N).image (fun k : ℕ => (k : ℚ) / N)).card = N ∧
    (∀ x : ℚ, quantize N (quantize N x) = quantize N x) := by
  have hN0 : ((N : ℚ)) ≠ 0 := Nat.cast_ne_zero.mpr (by omega)
  have hNpos : (0 : ℚ) < (N : ℚ) := by exact_mod_cast Nat.pos_of_ne_zero (by omega)
  refine ⟨?_, ?_, ?_, ?_⟩
  · intro x hx0 hx1
    have h1 : 0 ≤ x * (N : ℚ) := mul_nonneg hx0 hNpos.le
    have h2 : x * (N : ℚ) < (N : ℚ) := by
      calc x * (N : ℚ) < 1 * (N : ℚ) := by
            exact mul_lt_mul_of_pos_right hx1 hNpos
        _ = (N : ℚ) := one_mul _
    have hm0 : 0 ≤ ⌊x * (N : ℚ)⌋ := Int.floor_nonneg.mpr h1
    have hmN : ⌊x * (N : ℚ)⌋ < (N : ℤ) := Int.floor_lt.mpr (by exact_mod_cast h2)
    refine Finset.mem_image.mpr ⟨⌊x * (N : ℚ)⌋.toNat, Finset.mem_range.mpr (by omega), ?_⟩
    have hcast : ((⌊x * (N : ℚ)⌋.toNat : ℕ) : ℚ) = ((⌊x * (N : ℚ)⌋ : ℤ) : ℚ) := by
      exact_mod_cast congrArg Int.cast (Int.toNat_of_nonneg hm0)
    simp only [quantize, hcast]
  · intro k hk
    have hcancel : ((k : ℚ) / (N : ℚ)) * (N : ℚ) = (k : ℚ) :=
      div_mul_cancel₀ _ hN0
    simp [quantize, hcancel]
  · rw [Finset.card_image_of_injective _ ?_, Finset.card_range]
    intro a b hab
    have : ((a : ℚ)) = (b : ℚ) := by
      field_simp at hab
      exact_mod_cast hab
    exact_mod_cast this
  · intro x
    have hcancel : ((⌊x * (N : ℚ)⌋ : ℚ) / (N : ℚ)) * (N : ℚ) = ((⌊x * (N : ℚ)⌋ : ℤ) : ℚ) :=
      div_mul_cancel₀ _ hN0
    simp [quantize, hcancel]

/-- Witness for the amended C6 at the default band count N = 5. -/
theorem quantize_bands_amended_witness :
    1 ≤ 5 ∧
    ((∀ x : ℚ, 0 ≤ x → x < 1 →
        quantize 5 x ∈ (Finset.range 5).image (fun k : ℕ => (k : ℚ) / 5)) ∧
     (∀ k : ℕ, k < 5 → quantize 5 ((k : ℚ) / 5) = (k : ℚ) / 5) ∧
     ((Finset.range 5).image (fun k : ℕ => (k : ℚ) / 5)).card = 5 ∧
     (∀ x : ℚ, quantize 5 (quantize 5 x) = quantize 5 x)) := by
  refine ⟨by norm_num, ?_⟩
  have h := quantize_bands_amended 5 (by norm_num)
  simpa using h

/-- C7: a pixel flagged as an edge by any one of the depth, normal or
colour discontinuity tests is written as `stroke_colour`, regardless of
the underlying lit colour and of the banding result. -/
theorem outline_priority (s : SimpletoonSettings)
    (dEdge nEdge cEdge : Bool) (lit : Vec4)
    (h : dEdge = true ∨ nEdge = true ∨ cEdge = true) :
    fragmentOutput s dEdge nEdge cEdge lit = s.stroke_colour := by
  rcases h with h | h | h <;> subst h <;> simp [fragmentOutput]

/-- Witness for C7: a depth-flagged white pixel under default settings
is written as the default stroke colour. -/
theorem outline_priority_witness :
    (true = true ∨ false = true ∨ false = true) ∧
    fragmentOutput SimpletoonSettings.default true false false ⟨1, 1, 1, 1⟩ =
      SimpletoonSettings.default.stroke_colour :=
  ⟨Or.inl rfl,
   outline_priority SimpletoonSettings.default true false false ⟨1, 1, 1, 1⟩
     (Or.inl rfl)⟩

end Simpletoon
